import Mathlib

/-!
Verification of the sun8i thermal sensor driver core
(`src/drivers/thermal/sun8i_ths.c`) against its specification.

The driver is shallowly embedded: machine integers are `Nat`/`Int` with
explicit reductions modulo `2^32` / `2^64` where the C code can overflow
or casts truncate; memory-mapped register reads are modelled by an
environment function `Nat → Nat` from register offset to the `u32` value
read; register writes and thermal-zone notifications are recorded as
traces.
-/

/-! ## Register offsets and bit constants (the `#define` block, lines 29-71) -/

def THS_SUN8I_CTRL0 : Nat := 0x00

def THS_SUN8I_CTRL2 : Nat := 0x40

def THS_SUN8I_INT_CTRL : Nat := 0x44

def THS_SUN8I_STAT : Nat := 0x48

def THS_SUN8I_FILTER : Nat := 0x70

def THS_SUN8I_CDATA01 : Nat := 0x74

def THS_SUN8I_CDATA2 : Nat := 0x78

def THS_SUN8I_DATA0 : Nat := 0x80

def THS_SUN8I_DATA1 : Nat := 0x84

def THS_SUN8I_DATA2 : Nat := 0x88

/-- Linux `BIT(n)` macro. -/
def BIT (n : Nat) : Nat := 1 <<< n

def THS_SUN8I_CTRL0_SENSOR_ACQ0 (x : Nat) : Nat := x

def THS_SUN8I_CTRL2_SENSE_EN0 : Nat := BIT 0

def THS_SUN8I_CTRL2_SENSE_EN1 : Nat := BIT 1

def THS_SUN8I_CTRL2_SENSE_EN2 : Nat := BIT 2

def THS_SUN8I_CTRL2_SENSOR_ACQ1 (x : Nat) : Nat := x <<< 16

def THS_SUN8I_INT_CTRL_DATA0_IRQ_EN : Nat := BIT 8

def THS_SUN8I_INT_CTRL_DATA1_IRQ_EN : Nat := BIT 9

def THS_SUN8I_INT_CTRL_DATA2_IRQ_EN : Nat := BIT 10

def THS_SUN8I_INT_CTRL_THERMAL_PER (x : Nat) : Nat := x <<< 12

def THS_SUN8I_STAT_DATA0_IRQ_STS : Nat := BIT 8

def THS_SUN8I_STAT_DATA1_IRQ_STS : Nat := BIT 9

def THS_SUN8I_STAT_DATA2_IRQ_STS : Nat := BIT 10

def THS_SUN8I_STAT_CLEAR : Nat := 0x777

def THS_SUN8I_FILTER_TYPE (x : Nat) : Nat := x <<< 0

def THS_SUN8I_FILTER_EN : Nat := BIT 2

def THS_SUN8I_CLK_IN : Nat := 40000000

def THS_SUN8I_DATA_PERIOD : Nat := 330

def THS_SUN8I_FILTER_TYPE_VALUE : Nat := 2

def THS_SUN8I_FILTER_DIV : Nat := 1 <<< (THS_SUN8I_FILTER_TYPE_VALUE + 1)

def THS_SUN8I_INT_CTRL_THERMAL_PER_VALUE : Nat :=
  THS_SUN8I_DATA_PERIOD * (THS_SUN8I_CLK_IN / 1000) / THS_SUN8I_FILTER_DIV / 4096 - 1

def THS_SUN8I_CTRL0_SENSOR_ACQ0_VALUE : Nat := 0x3f

def THS_SUN8I_CTRL2_SENSOR_ACQ1_VALUE : Nat := 0x3f

def SUN8I_THS_MAX_TZDS : Nat := 3

/-! ## Data model (`struct sun8i_ths_sensor_desc`, `struct sun8i_ths_desc`) -/

/-- `struct sun8i_ths_sensor_desc` (lines 73-78): per-channel bit masks and
the channel's data register offset.  All fields are `u32`. -/
structure SensorDesc where
  data_int_en : Nat
  data_int_flag : Nat
  data_offset : Nat
  sense_en : Nat
deriving DecidableEq

/-- `struct sun8i_ths_desc` (lines 80-85): the per-variant descriptor.
`sensors` is the descriptor's sensor array; `num_sensors` is its declared
length (`ARRAY_SIZE` in the C initialisers). -/
structure ThsDesc where
  num_sensors : Nat
  sensors : List SensorDesc
  calc_temp : Nat → Int
  has_cal1 : Bool

/-- A sensor descriptor with no bits set, used as the out-of-range default
when stating per-index properties (a flag of 0 can never match a status
bit, and never does the C code index the sensor array out of range for
the two defined descriptors, see the bounds theorem). -/
def defaultSensor : SensorDesc := ⟨0, 0, 0, 0⟩

/-! ## Machine-integer semantics of the conversion functions -/

/-- Semantics of the C cast `(int)x` applied to a `uint64_t` value:
truncation to the low 32 bits, read as a two's-complement signed value
(the behaviour of the compilers the kernel supports). -/
def toInt32 (n : Nat) : Int :=
  if n % 4294967296 < 2147483648 then ((n % 4294967296 : Nat) : Int)
  else ((n % 4294967296 : Nat) : Int) - 4294967296

/-- Wrap an integer into the `int` (32-bit two's-complement) range, the
effective behaviour of the C `int` subtraction in the conversion
functions. -/
def int32Wrap (i : Int) : Int := (i + 2147483648) % 4294967296 - 2147483648

/-- `sun8i_ths_calc_temp_h3` (lines 104-111): `temp = (uint64_t)reg_val *
1000000; do_div(temp, 8253); return 217000 - (int)temp;`.  The `u64`
product is reduced modulo `2^64`, `do_div` is truncating unsigned
division, and the result of the cast and subtraction lands in `int`. -/
def sun8i_ths_calc_temp_h3 (reg_val : Nat) : Int :=
  int32Wrap (217000 - toInt32 (reg_val * 1000000 % 18446744073709551616 / 8253))

/-- `sun8i_ths_calc_temp_a83t` (lines 113-120): as above with constants
192000 and 14186. -/
def sun8i_ths_calc_temp_a83t (reg_val : Nat) : Int :=
  int32Wrap (192000 - toInt32 (reg_val * 1000000 % 18446744073709551616 / 14186))

/-! ## Variant descriptors (lines 352-394) -/

def sun8i_ths_h3_sensors : List SensorDesc :=
  [⟨THS_SUN8I_INT_CTRL_DATA0_IRQ_EN, THS_SUN8I_STAT_DATA0_IRQ_STS,
    THS_SUN8I_DATA0, THS_SUN8I_CTRL2_SENSE_EN0⟩]

def sun8i_ths_a83t_sensors : List SensorDesc :=
  [⟨THS_SUN8I_INT_CTRL_DATA0_IRQ_EN, THS_SUN8I_STAT_DATA0_IRQ_STS,
    THS_SUN8I_DATA0, THS_SUN8I_CTRL2_SENSE_EN0⟩,
   ⟨THS_SUN8I_INT_CTRL_DATA1_IRQ_EN, THS_SUN8I_STAT_DATA1_IRQ_STS,
    THS_SUN8I_DATA1, THS_SUN8I_CTRL2_SENSE_EN1⟩,
   ⟨THS_SUN8I_INT_CTRL_DATA2_IRQ_EN, THS_SUN8I_STAT_DATA2_IRQ_STS,
    THS_SUN8I_DATA2, THS_SUN8I_CTRL2_SENSE_EN2⟩]

/-- `sun8i_ths_h3_desc` (lines 382-387); `num_sensors = ARRAY_SIZE`. -/
def sun8i_ths_h3_desc : ThsDesc :=
  ⟨sun8i_ths_h3_sensors.length, sun8i_ths_h3_sensors, sun8i_ths_calc_temp_h3, false⟩

/-- `sun8i_ths_a83t_desc` (lines 389-394); `num_sensors = ARRAY_SIZE`. -/
def sun8i_ths_a83t_desc : ThsDesc :=
  ⟨sun8i_ths_a83t_sensors.length, sun8i_ths_a83t_sensors, sun8i_ths_calc_temp_a83t, true⟩

/-! ## Readback interface (`sun8i_ths_get_temp`, lines 122-132) -/

/-- `sun8i_ths_get_temp`: returns `-EBUSY` (modelled `none`) when the
channel's latched raw value `tzd->temp` is zero, otherwise
`desc->calc_temp(tzd->temp)`. -/
def sun8i_ths_get_temp (desc : ThsDesc) (temp : Nat) : Option Int :=
  if temp = 0 then none else some (desc.calc_temp temp)

/-- The per-channel latched state after `devm_kzalloc` (line 210): the
`tzds` array of `SUN8I_THS_MAX_TZDS` entries is zero-initialised, so every
channel starts with `temp = 0`. -/
def initialTemps : List Nat := List.replicate SUN8I_THS_MAX_TZDS 0

/-! ## Interrupt handler (`sun8i_ths_irq_thread`, lines 134-158) -/

/-- Accumulator of the handler's per-channel loop: the latched raw values
(`tzds[i].temp`), the channels for which `thermal_zone_device_update` was
called, and the data-register offsets read. -/
structure LoopAcc where
  temps : List Nat
  notified : List Nat
  dataReads : List Nat
deriving DecidableEq

/-- The loop of `sun8i_ths_irq_thread` (lines 145-155): for each channel
`i < num_sensors`, if the channel's status bit is set in `status`, read
its data register, store it in `tzds[i].temp`, and notify the thermal
zone when the stored value is nonzero.  `i` is the index of the head of
the remaining sensor list. -/
def irqLoop (env : Nat → Nat) (status : Nat) :
    List SensorDesc → Nat → LoopAcc → LoopAcc
  | [], _, acc => acc
  | z :: rest, i, acc =>
    if status &&& z.data_int_flag ≠ 0 then
      irqLoop env status rest (i + 1)
        ⟨acc.temps.set i (env z.data_offset),
         if env z.data_offset ≠ 0 then acc.notified ++ [i] else acc.notified,
         acc.dataReads ++ [z.data_offset]⟩
    else
      irqLoop env status rest (i + 1) acc

/-- Result of one invocation of the interrupt handler: the new latched
values, the notified channels, the trace of register reads (offsets, in
order) and the trace of register writes (offset, value). -/
structure IrqResult where
  temps : List Nat
  notified : List Nat
  reads : List Nat
  writes : List (Nat × Nat)

/-- `sun8i_ths_irq_thread` (lines 134-158): read the status register,
write the clear-all pattern back, then run the per-channel loop.  `env`
gives the value each register read returns during this invocation. -/
def sun8i_ths_irq_thread (desc : ThsDesc) (env : Nat → Nat) (temps : List Nat) :
    IrqResult :=
  let status := env THS_SUN8I_STAT
  let acc := irqLoop env status (desc.sensors.take desc.num_sensors) 0 ⟨temps, [], []⟩
  ⟨acc.temps, acc.notified, THS_SUN8I_STAT :: acc.dataReads,
   [(THS_SUN8I_STAT, THS_SUN8I_STAT_CLEAR)]⟩

/-- A sequence of interrupt-handler invocations, each with its own
register-read environment, threading the latched per-channel values. -/
def runIrqs (desc : ThsDesc) : List (Nat → Nat) → List Nat → List Nat
  | [], temps => temps
  | env :: rest, temps =>
    runIrqs desc rest (sun8i_ths_irq_thread desc env temps).temps

/-! ## Calibration loader and initialization (`sun8i_ths_init`, lines 160-197) -/

/-- Calibration-word reads performed by the calibration block of
`sun8i_ths_init` (lines 179-191): offsets into the calibration region.
`cal0` is read whenever the region is present; `cal1` (offset +4) only
when `has_cal1`. -/
def calReads (desc : ThsDesc) (cal_regs : Option (Nat → Nat)) : List Nat :=
  match cal_regs with
  | none => []
  | some _ => [0] ++ (if desc.has_cal1 then [4] else [])

/-- Calibration-register writes performed by the calibration block of
`sun8i_ths_init` (lines 179-191): `cal0` goes to `CDATA01` when nonzero;
when `has_cal1`, `cal1` goes to `CDATA2` when nonzero. -/
def calWrites (desc : ThsDesc) (cal_regs : Option (Nat → Nat)) : List (Nat × Nat) :=
  match cal_regs with
  | none => []
  | some cal =>
    (if cal 0 ≠ 0 then [(THS_SUN8I_CDATA01, cal 0)] else []) ++
    (if desc.has_cal1 then
       (if cal 4 ≠ 0 then [(THS_SUN8I_CDATA2, cal 4)] else [])
     else [])

/-- The accumulation loop of `sun8i_ths_init` (lines 174-177): OR each
channel's `sense_en` into `ctrl2` and its `data_int_en` into
`int_ctrl`. -/
def accumEnables : List SensorDesc → Nat × Nat → Nat × Nat
  | [], acc => acc
  | z :: rest, (ctrl2, int_ctrl) =>
    accumEnables rest (ctrl2 ||| z.sense_en, int_ctrl ||| z.data_int_en)

/-- `sun8i_ths_init` (lines 160-197), modelled as its trace of register
writes (offset, value) in program order: CTRL0, FILTER, the calibration
writes, CTRL2 (sense enable), and INT_CTRL (interrupt enable) last. -/
def sun8i_ths_init (desc : ThsDesc) (cal_regs : Option (Nat → Nat)) :
    List (Nat × Nat) :=
  let ws := [(THS_SUN8I_CTRL0,
              THS_SUN8I_CTRL0_SENSOR_ACQ0 THS_SUN8I_CTRL0_SENSOR_ACQ0_VALUE),
             (THS_SUN8I_FILTER,
              THS_SUN8I_FILTER_EN ||| THS_SUN8I_FILTER_TYPE THS_SUN8I_FILTER_TYPE_VALUE)]
  let acc := accumEnables (desc.sensors.take desc.num_sensors)
    (THS_SUN8I_CTRL2_SENSOR_ACQ1 THS_SUN8I_CTRL2_SENSOR_ACQ1_VALUE,
     THS_SUN8I_INT_CTRL_THERMAL_PER THS_SUN8I_INT_CTRL_THERMAL_PER_VALUE)
  let ws := ws ++ calWrites desc cal_regs
  let ws := ws ++ [(THS_SUN8I_CTRL2, acc.1)]
  ws ++ [(THS_SUN8I_INT_CTRL, acc.2)]

/-- The accumulated sense-enable word written to CTRL2: the ACQ1 base with
every channel's `sense_en` bit OR-ed in. -/
def ctrl2Val (desc : ThsDesc) : Nat :=
  (desc.sensors.take desc.num_sensors).foldl (fun a z => a ||| z.sense_en)
    (THS_SUN8I_CTRL2_SENSOR_ACQ1 THS_SUN8I_CTRL2_SENSOR_ACQ1_VALUE)

/-- The accumulated interrupt-control word written to INT_CTRL: the
thermal-period base with every channel's `data_int_en` bit OR-ed in. -/
def intCtrlVal (desc : ThsDesc) : Nat :=
  (desc.sensors.take desc.num_sensors).foldl (fun a z => a ||| z.data_int_en)
    (THS_SUN8I_INT_CTRL_THERMAL_PER THS_SUN8I_INT_CTRL_THERMAL_PER_VALUE)

/-! ## Concrete environments used in counterexamples and witnesses -/

/-- An interrupt delivering the sample 5 on channel 0: status has bit 8
set, DATA0 reads 5. -/
def deliverEnv : Nat → Nat :=
  fun off => if off = THS_SUN8I_STAT then 0x100
             else if off = THS_SUN8I_DATA0 then 5 else 0

/-- An interrupt whose status flags channel 0 but whose DATA0 register
reads zero (the zero-glitch reading of §4.3 of the spec). -/
def zeroGlitchEnv : Nat → Nat :=
  fun off => if off = THS_SUN8I_STAT then 0x100 else 0

/-- An interrupt delivering the sample 7 on channel 0 of a 3-channel
device (only channel 0's status bit set). -/
def ch0OnlyEnv : Nat → Nat :=
  fun off => if off = THS_SUN8I_STAT then 0x100
             else if off = THS_SUN8I_DATA0 then 7 else 0

/-- A calibration region whose first word reads zero and whose second
word (offset 4) reads `0x55`. -/
def calZeroFirstEnv : Nat → Nat := fun off => if off = 4 then 0x55 else 0

/-! ## Generic lemmas about the interrupt-handler loop -/

/-- Any property of the latched value at channel `j` that holds of the
current value and of every value the loop can read for channel `j` is
preserved by the loop.  `i` is the index of the head of `l`. -/
theorem irqLoop_persists (env : Nat → Nat) (status : Nat) (P : Nat → Prop) (j : Nat) :
    ∀ (l : List SensorDesc) (i : Nat) (acc : LoopAcc),
      (∀ k z, l[k]? = some z → i + k = j → P (env z.data_offset)) →
      P ((acc.temps[j]?).getD 0) →
      P ((((irqLoop env status l i acc).temps)[j]?).getD 0) := by
  intro l
  induction l with
  | nil =>
    intro i acc _ hP
    simpa [irqLoop] using hP
  | cons z rest ih =>
    intro i acc h hP
    simp only [irqLoop]
    split
    · refine ih (i + 1) _ ?_ ?_
      · intro k z' hk hik
        exact h (k + 1) z' (by simpa using hk) (by omega)
      · show P (((acc.temps.set i (env z.data_offset))[j]?).getD 0)
        by_cases hij : i = j
        · subst hij
          by_cases hlen : i < acc.temps.length
          · rw [List.getElem?_set_self hlen]
            simpa using h 0 z (by simp) (by omega)
          · have h1 : (acc.temps.set i (env z.data_offset))[i]? = none :=
              List.getElem?_eq_none (by simp; omega)
            have h2 : acc.temps[i]? = none := List.getElem?_eq_none (by omega)
            rw [h1]
            rw [h2] at hP
            exact hP
        · rw [List.getElem?_set_ne hij]
          exact hP
    · refine ih (i + 1) acc ?_ hP
      intro k z' hk hik
      exact h (k + 1) z' (by simpa using hk) (by omega)

/-- Channels whose status bit is not set are untouched by the loop: their
latched value is unchanged and they are not notified. -/
theorem irqLoop_frame (env : Nat → Nat) (status : Nat) (j : Nat) :
    ∀ (l : List SensorDesc) (i : Nat) (acc : LoopAcc),
      (∀ k z, l[k]? = some z → i + k = j → status &&& z.data_int_flag = 0) →
      j ∉ acc.notified →
      ((irqLoop env status l i acc).temps[j]? = acc.temps[j]?
        ∧ j ∉ (irqLoop env status l i acc).notified) := by
  intro l
  induction l with
  | nil =>
    intro i acc _ hj
    exact ⟨by simp [irqLoop], by simpa [irqLoop] using hj⟩
  | cons z rest ih =>
    intro i acc h hj
    simp only [irqLoop]
    split
    case isTrue hfired =>
      have hij : i ≠ j := by
        intro he
        exact hfired (h 0 z (by simp) (by omega))
      have hj' : j ∉ (if env z.data_offset ≠ 0 then acc.notified ++ [i] else acc.notified) := by
        split
        · intro hmem
          rcases List.mem_append.mp hmem with h1 | h1
          · exact hj h1
          · exact hij (List.mem_singleton.mp h1).symm
        · exact hj
      have hrec := ih (i + 1)
        ⟨acc.temps.set i (env z.data_offset),
         if env z.data_offset ≠ 0 then acc.notified ++ [i] else acc.notified,
         acc.dataReads ++ [z.data_offset]⟩
        (by intro k z' hk hik; exact h (k + 1) z' (by simpa using hk) (by omega)) hj'
      refine ⟨?_, hrec.2⟩
      rw [hrec.1]
      exact List.getElem?_set_ne hij
    case isFalse =>
      refine ih (i + 1) acc ?_ hj
      intro k z' hk hik
      exact h (k + 1) z' (by simpa using hk) (by omega)

/-- Every data-register offset the loop reads belongs to one of the
sensors it iterates over. -/
theorem irqLoop_dataReads_mem (env : Nat → Nat) (status : Nat) :
    ∀ (l : List SensorDesc) (i : Nat) (acc : LoopAcc) (x : Nat),
      x ∈ (irqLoop env status l i acc).dataReads →
      x ∈ acc.dataReads ∨ ∃ z ∈ l, x = z.data_offset := by
  intro l
  induction l with
  | nil =>
    intro i acc x hx
    simp only [irqLoop] at hx
    exact Or.inl hx
  | cons z rest ih =>
    intro i acc x hx
    simp only [irqLoop] at hx
    split at hx
    · rcases ih (i + 1) _ x hx with h1 | ⟨z', hz', he⟩
      · rcases List.mem_append.mp h1 with h2 | h2
        · exact Or.inl h2
        · exact Or.inr ⟨z, List.mem_cons_self z rest, List.mem_singleton.mp h2⟩
      · exact Or.inr ⟨z', List.mem_cons_of_mem z hz', he⟩
    · rcases ih (i + 1) acc x hx with h1 | ⟨z', hz', he⟩
      · exact Or.inl h1
      · exact Or.inr ⟨z', List.mem_cons_of_mem z hz', he⟩

/-- Lift `irqLoop_persists` through a sequence of handler invocations. -/
theorem runIrqs_persists (desc : ThsDesc) (j : Nat) (P : Nat → Prop) :
    ∀ (envs : List (Nat → Nat)) (temps : List Nat),
      (∀ env ∈ envs, ∀ k z,
        (desc.sensors.take desc.num_sensors)[k]? = some z → k = j →
        P (env z.data_offset)) →
      P ((temps[j]?).getD 0) →
      P (((runIrqs desc envs temps)[j]?).getD 0) := by
  intro envs
  induction envs with
  | nil =>
    intro temps _ hP
    simpa [runIrqs] using hP
  | cons env rest ih =>
    intro temps h hP
    simp only [runIrqs]
    refine ih _ ?_ ?_
    · intro e he k z hk hkj
      exact h e (List.mem_cons_of_mem env he) k z hk hkj
    · show P (((irqLoop env (env THS_SUN8I_STAT)
        (desc.sensors.take desc.num_sensors) 0 ⟨temps, [], []⟩).temps[j]?).getD 0)
      refine irqLoop_persists env (env THS_SUN8I_STAT) P j _ 0 ⟨temps, [], []⟩ ?_ hP
      intro k z hk hik
      exact h env (List.mem_cons_self env rest) k z hk (by omega)

/-! ## Arithmetic helper lemmas for the conversion formulas -/

/-- In the region where the 64-bit quotient fits in a 32-bit `int`, the H3
conversion computes exactly the truncating-division formula. -/
theorem calc_temp_h3_in_range (r : Nat) (h : r ≤ 17723182) :
    sun8i_ths_calc_temp_h3 r = 217000 - ((r * 1000000 / 8253 : Nat) : Int) := by
  have hm : r * 1000000 < 18446744073709551616 := by
    have h1 : r * 1000000 ≤ 17723182 * 1000000 := Nat.mul_le_mul_right 1000000 h
    omega
  have hq : r * 1000000 / 8253 < 2147483648 := by
    have h1 : r * 1000000 / 8253 ≤ 17723182000000 / 8253 :=
      Nat.div_le_div_right (by omega)
    have h2 : (17723182000000 : Nat) / 8253 < 2147483648 := by decide
    omega
  unfold sun8i_ths_calc_temp_h3 toInt32 int32Wrap
  rw [Nat.mod_eq_of_lt hm,
      Nat.mod_eq_of_lt (show r * 1000000 / 8253 < 4294967296 by omega),
      if_pos hq]
  rw [Int.emod_eq_of_lt (by omega) (by omega)]
  omega

/-- In the region where the 64-bit quotient fits in a 32-bit `int`, the
A83T conversion computes exactly the truncating-division formula. -/
theorem calc_temp_a83t_in_range (r : Nat) (h : r ≤ 30464203) :
    sun8i_ths_calc_temp_a83t r = 192000 - ((r * 1000000 / 14186 : Nat) : Int) := by
  have hm : r * 1000000 < 18446744073709551616 := by
    have h1 : r * 1000000 ≤ 30464203 * 1000000 := Nat.mul_le_mul_right 1000000 h
    omega
  have hq : r * 1000000 / 14186 < 2147483648 := by
    have h1 : r * 1000000 / 14186 ≤ 30464203000000 / 14186 :=
      Nat.div_le_div_right (by omega)
    have h2 : (30464203000000 : Nat) / 14186 < 2147483648 := by decide
    omega
  unfold sun8i_ths_calc_temp_a83t toInt32 int32Wrap
  rw [Nat.mod_eq_of_lt hm,
      Nat.mod_eq_of_lt (show r * 1000000 / 14186 < 4294967296 by omega),
      if_pos hq]
  rw [Int.emod_eq_of_lt (by omega) (by omega)]
  omega

/-! ## Claim theorems -/

/-- C2 (amended): for every raw value whose 64-bit quotient fits in a
32-bit `int` (`raw ≤ 17723182` for H3, `raw ≤ 30464203` for A83T), the
Variant A (H3) conversion returns `217000 - raw * 1000000 / 8253` and the
Variant B (A83T) conversion returns `192000 - raw * 1000000 / 14186`,
with exact truncating integer division; each variant descriptor binds
exactly one of the two formulas. -/
theorem sun8i_ths_calc_temp_formulas (r s : Nat)
    (hr : r ≤ 17723182) (hs : s ≤ 30464203) :
    sun8i_ths_calc_temp_h3 r = 217000 - ((r * 1000000 / 8253 : Nat) : Int)
    ∧ sun8i_ths_calc_temp_a83t s = 192000 - ((s * 1000000 / 14186 : Nat) : Int)
    ∧ sun8i_ths_h3_desc.calc_temp = sun8i_ths_calc_temp_h3
    ∧ sun8i_ths_a83t_desc.calc_temp = sun8i_ths_calc_temp_a83t :=
  ⟨calc_temp_h3_in_range r hr, calc_temp_a83t_in_range s hs, rfl, rfl⟩

/-- Witness for C2's theorem at `r = 1000`, `s = 2000`. -/
theorem sun8i_ths_calc_temp_formulas_witness :
    ((1000 : Nat) ≤ 17723182 ∧ (2000 : Nat) ≤ 30464203)
    ∧ sun8i_ths_calc_temp_h3 1000 = 217000 - ((1000 * 1000000 / 8253 : Nat) : Int)
    ∧ sun8i_ths_calc_temp_a83t 2000 = 192000 - ((2000 * 1000000 / 14186 : Nat) : Int) :=
  ⟨⟨by decide, by decide⟩,
   (sun8i_ths_calc_temp_formulas 1000 2000 (by decide) (by decide)).1,
   (sun8i_ths_calc_temp_formulas 1000 2000 (by decide) (by decide)).2.1⟩

/-- C2 (counterexample): at `raw = 4294967295` (a `u32` value) the cast of
the 64-bit quotient to `int` truncates, so the H3 conversion does NOT
return `217000 - raw * 1000000 / 8253`. -/
theorem sun8i_ths_calc_temp_h3_overflow :
    sun8i_ths_calc_temp_h3 4294967295
      ≠ 217000 - ((4294967295 * 1000000 / 8253 : Nat) : Int) := by decide

/-- C7 (amended): within the region where the 64-bit quotient fits in a
32-bit `int`, both conversion functions are monotonically decreasing
(non-strictly, as the truncating division forces). -/
theorem sun8i_ths_calc_temp_antitone (r1 r2 s1 s2 : Nat)
    (hr : r1 < r2) (hr2 : r2 ≤ 17723182) (hs : s1 < s2) (hs2 : s2 ≤ 30464203) :
    sun8i_ths_calc_temp_h3 r2 ≤ sun8i_ths_calc_temp_h3 r1
    ∧ sun8i_ths_calc_temp_a83t s2 ≤ sun8i_ths_calc_temp_a83t s1 := by
  constructor
  · rw [calc_temp_h3_in_range r1 (by omega), calc_temp_h3_in_range r2 hr2]
    have h1 : r1 * 1000000 / 8253 ≤ r2 * 1000000 / 8253 :=
      Nat.div_le_div_right (Nat.mul_le_mul_right 1000000 (Nat.le_of_lt hr))
    omega
  · rw [calc_temp_a83t_in_range s1 (by omega), calc_temp_a83t_in_range s2 hs2]
    have h1 : s1 * 1000000 / 14186 ≤ s2 * 1000000 / 14186 :=
      Nat.div_le_div_right (Nat.mul_le_mul_right 1000000 (Nat.le_of_lt hs))
    omega

/-- Witness for C7's theorem at `(1, 2)` and `(3, 4)`. -/
theorem sun8i_ths_calc_temp_antitone_witness :
    ((1 : Nat) < 2 ∧ (2 : Nat) ≤ 17723182 ∧ (3 : Nat) < 4 ∧ (4 : Nat) ≤ 30464203)
    ∧ sun8i_ths_calc_temp_h3 2 ≤ sun8i_ths_calc_temp_h3 1
    ∧ sun8i_ths_calc_temp_a83t 4 ≤ sun8i_ths_calc_temp_a83t 3 :=
  ⟨⟨by decide, by decide, by decide, by decide⟩,
   (sun8i_ths_calc_temp_antitone 1 2 3 4 (by decide) (by decide) (by decide) (by decide)).1,
   (sun8i_ths_calc_temp_antitone 1 2 3 4 (by decide) (by decide) (by decide) (by decide)).2⟩

/-- C7 (counterexample): over the full `u32` range the H3 conversion is
not monotonically decreasing: the cast truncation makes the value jump
upward, so `convert 24001 < convert 17724974` although `24001 < 17724974`. -/
theorem sun8i_ths_calc_temp_h3_not_antitone :
    (24001 : Nat) < 17724974
    ∧ sun8i_ths_calc_temp_h3 24001 < sun8i_ths_calc_temp_h3 17724974 := by decide

/-- C8 (counterexample): the spec's illustrative value `217000 - 2907372`
is not what the H3 conversion returns at `raw = 0x5DC0 = 24000`, because
`2907372` is not the truncating quotient of `24000000000 / 8253`. -/
theorem sun8i_ths_calc_temp_h3_24000_ne_spec :
    sun8i_ths_calc_temp_h3 24000 ≠ 217000 - 2907372 := by decide

/-- C8 (amended): at `raw = 0x5DC0 = 24000` the H3 conversion returns
exactly `217000` minus the truncating integer division `24000000000 /
8253 = 2908033`, i.e. the literal integer `-2691033` (not a float
approximation, and not the spec's illustrative `2907372`). -/
theorem sun8i_ths_calc_temp_h3_at_24000 :
    sun8i_ths_calc_temp_h3 0x5DC0 = 217000 - ((24000000000 / 8253 : Nat) : Int)
    ∧ sun8i_ths_calc_temp_h3 0x5DC0 = -2691033
    ∧ (24000000000 / 8253 : Nat) = 2908033 := by decide

/-- C1: `sun8i_ths_get_temp` returns Unavailable (`none`, i.e. `-EBUSY`)
iff the channel's latched raw value is 0, and otherwise
`some (calc_temp last_raw)` with the descriptor's bound conversion
function; and for every channel, as long as every interrupt delivered
only zero samples (in particular before any interrupt), it returns
Unavailable. -/
theorem sun8i_ths_get_temp_spec (desc : ThsDesc) (temp : Nat) :
    (sun8i_ths_get_temp desc temp = none ↔ temp = 0)
    ∧ (temp ≠ 0 → sun8i_ths_get_temp desc temp = some (desc.calc_temp temp))
    ∧ (∀ envs : List (Nat → Nat),
        (∀ env ∈ envs, ∀ z ∈ desc.sensors, env z.data_offset = 0) →
        ∀ j : Nat, sun8i_ths_get_temp desc
          (((runIrqs desc envs initialTemps)[j]?).getD 0) = none) := by
  refine ⟨?_, ?_, ?_⟩
  · constructor
    · intro h
      by_cases h0 : temp = 0
      · exact h0
      · simp [sun8i_ths_get_temp, h0] at h
    · intro h0
      simp [sun8i_ths_get_temp, h0]
  · intro h0
    simp [sun8i_ths_get_temp, h0]
  · intro envs henv j
    have hz : ((runIrqs desc envs initialTemps)[j]?).getD 0 = 0 := by
      refine runIrqs_persists desc j (fun v => v = 0) envs initialTemps ?_ ?_
      · intro env he k z hk _
        exact henv env he z (List.take_subset _ _ (List.getElem?_mem hk))
      · unfold initialTemps
        rw [List.getElem?_replicate]
        split <;> rfl
    rw [hz]
    rfl

/-- Witness for C1's theorem at the H3 descriptor, `temp = 7`, and the
empty interrupt sequence. -/
theorem sun8i_ths_get_temp_spec_witness :
    ((7 : Nat) ≠ 0
      ∧ sun8i_ths_get_temp sun8i_ths_h3_desc 7
          = some (sun8i_ths_h3_desc.calc_temp 7))
    ∧ sun8i_ths_get_temp sun8i_ths_h3_desc
        (((runIrqs sun8i_ths_h3_desc [] initialTemps)[0]?).getD 0) = none :=
  ⟨⟨by decide, (sun8i_ths_get_temp_spec sun8i_ths_h3_desc 7).2.1 (by decide)⟩,
   (sun8i_ths_get_temp_spec sun8i_ths_h3_desc 7).2.2 [] (by simp) 0⟩

/-- C3 (amended): a channel that has become Available stays Available
under any sequence of interrupt-handler invocations in which every data
register read for that channel returns a nonzero value; a qualifying
interrupt that reads a zero raw value does send the channel back to
Unavailable (with no notification), as the counterexample shows. -/
theorem sun8i_ths_available_persists (desc : ThsDesc) (envs : List (Nat → Nat))
    (temps : List Nat) (j : Nat)
    (h : ∀ env ∈ envs,
      env (((desc.sensors.take desc.num_sensors).getD j defaultSensor).data_offset) ≠ 0)
    (h0 : (temps[j]?).getD 0 ≠ 0) :
    ((runIrqs desc envs temps)[j]?).getD 0 ≠ 0 := by
  refine runIrqs_persists desc j (fun v => v ≠ 0) envs temps ?_ h0
  intro env he k z hk hkj
  subst hkj
  have hz : (desc.sensors.take desc.num_sensors).getD k defaultSensor = z := by
    rw [List.getD_eq_getElem?_getD, hk]
    rfl
  exact hz ▸ h env he

/-- Witness for C3's theorem: one interrupt delivering the sample 5 on
channel 0 of the H3 device keeps channel 0 Available. -/
theorem sun8i_ths_available_persists_witness :
    ((runIrqs sun8i_ths_h3_desc [deliverEnv] [5, 0, 0])[0]?).getD 0 ≠ 0 := by
  refine sun8i_ths_available_persists sun8i_ths_h3_desc [deliverEnv] [5, 0, 0] 0 ?_ (by decide)
  intro env he
  rw [List.mem_singleton] at he
  subst he
  decide

/-- C3 (counterexample): starting from the initial all-zero state of the
H3 device, one interrupt delivering a nonzero sample makes channel 0
Available, and a following interrupt whose DATA0 register reads zero
returns it to Unavailable — `last_raw` does become 0 again. -/
theorem sun8i_ths_available_lost :
    ((runIrqs sun8i_ths_h3_desc [deliverEnv] initialTemps)[0]?).getD 0 ≠ 0
    ∧ ((runIrqs sun8i_ths_h3_desc [deliverEnv, zeroGlitchEnv] initialTemps)[0]?).getD 0
        = 0 := by decide

/-- C4: a channel whose status bit is not set in the status value read at
the start of the invocation keeps its latched raw value and is not
notified. -/
theorem sun8i_ths_irq_channel_independence (desc : ThsDesc) (env : Nat → Nat)
    (temps : List Nat) (j : Nat)
    (h : env THS_SUN8I_STAT &&&
      ((desc.sensors.take desc.num_sensors).getD j defaultSensor).data_int_flag = 0) :
    (sun8i_ths_irq_thread desc env temps).temps[j]? = temps[j]?
    ∧ j ∉ (sun8i_ths_irq_thread desc env temps).notified := by
  have hfr := irqLoop_frame env (env THS_SUN8I_STAT) j
    (desc.sensors.take desc.num_sensors) 0 ⟨temps, [], []⟩ ?_ (by simp)
  · exact ⟨hfr.1, hfr.2⟩
  · intro k z hk hik
    have hz : (desc.sensors.take desc.num_sensors).getD k defaultSensor = z := by
      rw [List.getD_eq_getElem?_getD, hk]
      rfl
    have hjk : k = j := by omega
    subst hjk
    exact hz ▸ h

/-- Witness for C4's theorem: an interrupt on the A83T device with only
channel 0's status bit set leaves channel 1's latched value unchanged and
does not notify channel 1. -/
theorem sun8i_ths_irq_channel_independence_witness :
    (sun8i_ths_irq_thread sun8i_ths_a83t_desc ch0OnlyEnv [1, 2, 3]).temps[1]?
        = [(1 : Nat), 2, 3][1]?
    ∧ 1 ∉ (sun8i_ths_irq_thread sun8i_ths_a83t_desc ch0OnlyEnv [1, 2, 3]).notified :=
  sun8i_ths_irq_channel_independence sun8i_ths_a83t_desc ch0OnlyEnv [1, 2, 3] 1 (by decide)

/-- Helper for C9: when no sensor's data register shares the status
register's offset, the handler reads the status register exactly once. -/
theorem irq_count_stat (desc : ThsDesc) (env : Nat → Nat) (temps : List Nat)
    (hd : ∀ z ∈ desc.sensors, z.data_offset ≠ THS_SUN8I_STAT) :
    (sun8i_ths_irq_thread desc env temps).reads.count THS_SUN8I_STAT = 1 := by
  show (THS_SUN8I_STAT :: (irqLoop env (env THS_SUN8I_STAT)
      (desc.sensors.take desc.num_sensors) 0 ⟨temps, [], []⟩).dataReads).count
      THS_SUN8I_STAT = 1
  rw [List.count_cons]
  have h0 : (irqLoop env (env THS_SUN8I_STAT)
      (desc.sensors.take desc.num_sensors) 0 ⟨temps, [], []⟩).dataReads.count
      THS_SUN8I_STAT = 0 := by
    rw [List.count_eq_zero]
    intro hmem
    rcases irqLoop_dataReads_mem env (env THS_SUN8I_STAT) _ 0 ⟨temps, [], []⟩ _ hmem with
      h1 | ⟨z, hz, hx⟩
    · simp at h1
    · exact hd z (List.take_subset _ _ hz) hx.symm
  simp [h0]

/-- C9: on every invocation the interrupt handler writes exactly the
constant clear-all pattern `0x777` to the status register, and nothing
else, unconditionally for every descriptor; the status register is the
first register read and (for both defined descriptors, whatever the
status value) it is read exactly once. -/
theorem sun8i_ths_irq_stat_protocol (env : Nat → Nat) (temps : List Nat) :
    (∀ desc : ThsDesc, (sun8i_ths_irq_thread desc env temps).writes
        = [(THS_SUN8I_STAT, THS_SUN8I_STAT_CLEAR)])
    ∧ THS_SUN8I_STAT_CLEAR = 0x777
    ∧ (∀ desc : ThsDesc, (sun8i_ths_irq_thread desc env temps).reads.head?
        = some THS_SUN8I_STAT)
    ∧ (sun8i_ths_irq_thread sun8i_ths_h3_desc env temps).reads.count THS_SUN8I_STAT = 1
    ∧ (sun8i_ths_irq_thread sun8i_ths_a83t_desc env temps).reads.count
        THS_SUN8I_STAT = 1 :=
  ⟨fun _ => rfl, rfl, fun _ => rfl,
   irq_count_stat sun8i_ths_h3_desc env temps (by decide),
   irq_count_stat sun8i_ths_a83t_desc env temps (by decide)⟩

/-- Witness for C9's theorem at a concrete environment and state. -/
theorem sun8i_ths_irq_stat_protocol_witness :
    (sun8i_ths_irq_thread sun8i_ths_h3_desc zeroGlitchEnv [0, 0, 0]).writes
        = [(THS_SUN8I_STAT, THS_SUN8I_STAT_CLEAR)]
    ∧ (sun8i_ths_irq_thread sun8i_ths_h3_desc zeroGlitchEnv [0, 0, 0]).reads.count
        THS_SUN8I_STAT = 1 :=
  ⟨(sun8i_ths_irq_stat_protocol zeroGlitchEnv [0, 0, 0]).1 sun8i_ths_h3_desc,
   (sun8i_ths_irq_stat_protocol zeroGlitchEnv [0, 0, 0]).2.2.2.1⟩

/-- C5: the calibration loader writes the first word to `CDATA01` iff the
region is present and that word is nonzero; it reads a second word at
offset +4 and writes it to `CDATA2` iff the region is present, `has_cal1`
is set and that word is nonzero; with no region it performs no reads or
writes; a zero first word followed by a nonzero second word yields
exactly one write, the second. -/
theorem sun8i_ths_cal_loader (desc : ThsDesc) (cal : Nat → Nat) :
    (calWrites desc none = [] ∧ calReads desc none = [])
    ∧ ((∃ v, (THS_SUN8I_CDATA01, v) ∈ calWrites desc (some cal)) ↔ cal 0 ≠ 0)
    ∧ ((∃ v, (THS_SUN8I_CDATA2, v) ∈ calWrites desc (some cal))
        ↔ desc.has_cal1 = true ∧ cal 4 ≠ 0)
    ∧ (cal 0 = 0 → desc.has_cal1 = true → cal 4 ≠ 0 →
        calWrites desc (some cal) = [(THS_SUN8I_CDATA2, cal 4)]) := by
  refine ⟨⟨rfl, rfl⟩, ?_, ?_, ?_⟩
  · simp only [calWrites]
    split_ifs with h1 h2 h3 <;>
      simp_all [THS_SUN8I_CDATA01, THS_SUN8I_CDATA2, Prod.ext_iff]
  · simp only [calWrites]
    split_ifs with h1 h2 h3 <;>
      simp_all [THS_SUN8I_CDATA01, THS_SUN8I_CDATA2, Prod.ext_iff]
  · intro h0 hc hc4
    simp [calWrites, h0, hc, hc4]

/-- Witness for C5's theorem: the A83T descriptor (`has_cal1 = true`)
with a region whose first word is zero and second word is `0x55` writes
only the second word. -/
theorem sun8i_ths_cal_loader_witness :
    calWrites sun8i_ths_a83t_desc (some calZeroFirstEnv)
      = [(THS_SUN8I_CDATA2, calZeroFirstEnv 4)] :=
  (sun8i_ths_cal_loader sun8i_ths_a83t_desc calZeroFirstEnv).2.2.2
    (by decide) rfl (by decide)

/-- The paired accumulation loop of `sun8i_ths_init` computes the two
independent bit-fold words of the spec. -/
theorem accumEnables_eq : ∀ (l : List SensorDesc) (c i : Nat),
    accumEnables l (c, i)
      = (l.foldl (fun a z => a ||| z.sense_en) c,
         l.foldl (fun a z => a ||| z.data_int_en) i) := by
  intro l
  induction l with
  | nil => intro c i; rfl
  | cons z rest ih =>
    intro c i
    simp only [accumEnables, List.foldl]
    exact ih _ _

/-- C6: initialization writes, in exactly this order: the acquisition
timing word to CTRL0, the filter word to FILTER, then the calibration
writes, then the accumulated sense-enable word to CTRL2, and finally the
accumulated interrupt-enable word (with the thermal-period constant) to
INT_CTRL, which is the last write. -/
theorem sun8i_ths_init_order (desc : ThsDesc) (cal : Option (Nat → Nat)) :
    sun8i_ths_init desc cal
      = [(THS_SUN8I_CTRL0,
          THS_SUN8I_CTRL0_SENSOR_ACQ0 THS_SUN8I_CTRL0_SENSOR_ACQ0_VALUE),
         (THS_SUN8I_FILTER,
          THS_SUN8I_FILTER_EN ||| THS_SUN8I_FILTER_TYPE THS_SUN8I_FILTER_TYPE_VALUE)]
        ++ calWrites desc cal
        ++ [(THS_SUN8I_CTRL2, ctrl2Val desc), (THS_SUN8I_INT_CTRL, intCtrlVal desc)]
    ∧ (sun8i_ths_init desc cal).getLast? = some (THS_SUN8I_INT_CTRL, intCtrlVal desc) := by
  have hacc := accumEnables_eq (desc.sensors.take desc.num_sensors)
    (THS_SUN8I_CTRL2_SENSOR_ACQ1 THS_SUN8I_CTRL2_SENSOR_ACQ1_VALUE)
    (THS_SUN8I_INT_CTRL_THERMAL_PER THS_SUN8I_INT_CTRL_THERMAL_PER_VALUE)
  have h1 : sun8i_ths_init desc cal
      = ([(THS_SUN8I_CTRL0,
           THS_SUN8I_CTRL0_SENSOR_ACQ0 THS_SUN8I_CTRL0_SENSOR_ACQ0_VALUE),
          (THS_SUN8I_FILTER,
           THS_SUN8I_FILTER_EN ||| THS_SUN8I_FILTER_TYPE THS_SUN8I_FILTER_TYPE_VALUE)]
         ++ calWrites desc cal
         ++ [(THS_SUN8I_CTRL2, ctrl2Val desc)])
        ++ [(THS_SUN8I_INT_CTRL, intCtrlVal desc)] := by
    simp only [sun8i_ths_init, hacc]
    simp [ctrl2Val, intCtrlVal]
  constructor
  · rw [h1]
    simp [List.append_assoc]
  · rw [h1, List.getLast?_concat]

/-- Witness for C6's theorem at the A83T descriptor and a present
calibration region. -/
theorem sun8i_ths_init_order_witness :
    sun8i_ths_init sun8i_ths_a83t_desc (some calZeroFirstEnv)
      = [(THS_SUN8I_CTRL0,
          THS_SUN8I_CTRL0_SENSOR_ACQ0 THS_SUN8I_CTRL0_SENSOR_ACQ0_VALUE),
         (THS_SUN8I_FILTER,
          THS_SUN8I_FILTER_EN ||| THS_SUN8I_FILTER_TYPE THS_SUN8I_FILTER_TYPE_VALUE)]
        ++ calWrites sun8i_ths_a83t_desc (some calZeroFirstEnv)
        ++ [(THS_SUN8I_CTRL2, ctrl2Val sun8i_ths_a83t_desc),
            (THS_SUN8I_INT_CTRL, intCtrlVal sun8i_ths_a83t_desc)]
    ∧ (sun8i_ths_init sun8i_ths_a83t_desc (some calZeroFirstEnv)).getLast?
        = some (THS_SUN8I_INT_CTRL, intCtrlVal sun8i_ths_a83t_desc) :=
  sun8i_ths_init_order sun8i_ths_a83t_desc (some calZeroFirstEnv)

/-- C10: both defined descriptors have `num_sensors` at most
`SUN8I_THS_MAX_TZDS = 3`, their sensor arrays have exactly `num_sensors`
entries, the per-channel loops iterate exactly `num_sensors` times, and
every loop index is in bounds for both the `tzds` array and the sensor
array. -/
theorem sun8i_ths_descriptor_bounds :
    SUN8I_THS_MAX_TZDS = 3
    ∧ sun8i_ths_h3_desc.num_sensors = 1
    ∧ sun8i_ths_a83t_desc.num_sensors = 3
    ∧ sun8i_ths_h3_desc.num_sensors ≤ SUN8I_THS_MAX_TZDS
    ∧ sun8i_ths_a83t_desc.num_sensors ≤ SUN8I_THS_MAX_TZDS
    ∧ sun8i_ths_h3_desc.sensors.length = sun8i_ths_h3_desc.num_sensors
    ∧ sun8i_ths_a83t_desc.sensors.length = sun8i_ths_a83t_desc.num_sensors
    ∧ (sun8i_ths_h3_desc.sensors.take sun8i_ths_h3_desc.num_sensors).length
        = sun8i_ths_h3_desc.num_sensors
    ∧ (sun8i_ths_a83t_desc.sensors.take sun8i_ths_a83t_desc.num_sensors).length
        = sun8i_ths_a83t_desc.num_sensors
    ∧ ((List.range sun8i_ths_h3_desc.num_sensors).all
        (fun i => Nat.blt i SUN8I_THS_MAX_TZDS
          && Nat.blt i sun8i_ths_h3_desc.sensors.length)) = true
    ∧ ((List.range sun8i_ths_a83t_desc.num_sensors).all
        (fun i => Nat.blt i SUN8I_THS_MAX_TZDS
          && Nat.blt i sun8i_ths_a83t_desc.sensors.length)) = true := by decide
